import Mathlib

/-!
# Verification of the TCP connection-manager core (`backend/tcpio/tcp_server.py`)

Shallow embedding of the `TCPServer` class: the per-connection read loop of
`handle_client`, the identity-registration step, the idle-timeout heartbeat
branch, `send_message`, the bind-retry logic of `start`, and the shutdown pair
`safe_stop` / `stop`.

Modelling choices, all directly mirroring the source:
* Python's insertion-ordered `dict` with string keys is an association list
  with `dict`-style `insertKey` (update in place, else append), `eraseKey`
  (`del`), `lookup` / `containsKey` (`d[k]`, `k in d`); iteration order of
  `.items()` is list order.
* Sockets are opaque handles (`Nat`).  What the server hands to the external
  codec (`TCPProtocol.build_message`) is recorded as the semantic triple
  (sender, receiver, cmd); the codec itself lives outside this module
  (`backend/tcpio/protocol.py`) and outside the claims.
* Fallible externals (what `recv` returned, whether `parse_message` raised or
  returned an INVALID record, whether `sendall` raised) enter as explicit
  inputs of each step function; `print` logging is not modelled.
* Side effects other than the registry update (writes to a socket, invoking
  the consumer's `handle_message`, closing a socket) are returned as an
  explicit effect list.
-/

namespace TCPServerModel

abbrev Sock := Nat

/-- `self.truck_sockets` : insertion-ordered mapping truck-id → socket. -/
abbrev TruckMap := List (String × Sock)

/-- Python `d.get(k)` / `d[k]` on a string-keyed dict. -/
def lookup (m : TruckMap) (k : String) : Option Sock :=
  (m.find? (fun p => p.1 = k)).map (·.2)

/-- Python `k in d`. -/
def containsKey (m : TruckMap) (k : String) : Bool :=
  (m.find? (fun p => p.1 = k)).isSome

/-- Python `del d[k]` (tolerating an absent key, as the source always guards it). -/
def eraseKey (m : TruckMap) (k : String) : TruckMap :=
  m.filter (fun p => p.1 ≠ k)

/-- Python `d[k] = v`: update in place if present, else append (dict order). -/
def insertKey (m : TruckMap) (k : String) (v : Sock) : TruckMap :=
  if containsKey m k then m.map (fun p => if p.1 = k then (k, v) else p)
  else m ++ [(k, v)]

/-- A decoded message as `handle_client` consumes it: `message.get("sender")`
and `message.get("cmd")` (absent keys give `none`). -/
structure Msg where
  sender : Option String
  cmd : Option String
deriving DecidableEq, Repr

/-- Outcome of `TCPProtocol.parse_message(raw_data)` as observed by the
handler: the call raised, returned a record with `type == "INVALID"`, or
returned a valid record. -/
inductive ParseOutcome
  | exn
  | invalid
  | ok (m : Msg)
deriving DecidableEq, Repr

/-- The semantic fields the server passes to `TCPProtocol.build_message`. -/
structure WireMsg where
  sender : String
  receiver : Option String
  cmd : String
deriving DecidableEq, Repr

/-- Observable side effects of one handler step. -/
inductive Effect
  | sent (sock : Sock) (w : WireMsg)
  | consumerHandled (m : Msg)
  | closedSock (sock : Sock)
deriving DecidableEq, Repr

inductive Control
  | continueLoop
  | breakLoop
deriving DecidableEq, Repr

/-- Python truthiness of `message.get("sender")`: `None` and `""` are falsy. -/
def truthy : Option String → Bool
  | none => false
  | some s => s ≠ ""

/-- Lines 228–243 of `handle_client`: on a decoded message, register the
sender.  If the sender id is truthy and *not yet a key* of `truck_sockets`,
the temporary entry is deleted; then `truck_sockets[truck_id] = client_sock`
unconditionally (when the sender is truthy). -/
def registerSender (ts : TruckMap) (temp : String) (sender? : Option String)
    (sock : Sock) : TruckMap :=
  match sender? with
  | none => ts
  | some tid =>
    if tid = "" then ts
    else
      let ts1 := if containsKey ts tid then ts else eraseKey ts temp
      insertKey ts1 tid sock

/-- Lines 246–268: command dispatch after registration.  `HELLO` is answered
with a `HEARTBEAT_ACK` addressed to the message's sender (a `sendall` failure
is caught and only logged) and the loop `continue`s; any other command is
handed to `self.app.handle_message` (whose exceptions are caught and logged). -/
def dispatchMsg (m : Msg) (sock : Sock) (ackOk : Bool) : List Effect :=
  if m.cmd = some "HELLO" then
    if ackOk then [.sent sock ⟨"SERVER", m.sender, "HEARTBEAT_ACK"⟩] else []
  else
    [.consumerHandled m]

/-- Python `s.startswith(t)`, computed on the character lists so that concrete
instances reduce in the kernel. -/
def pyStartsWith (s t : String) : Bool :=
  t.data.isPrefixOf s.data

/-- Lines 280–285: scan `truck_sockets.items()` for the first id mapping to
this socket that does not start with `"TEMP_"` (`tid.startswith("TEMP_")`). -/
def findRegistered (ts : TruckMap) (sock : Sock) : Option String :=
  (ts.find? (fun p => p.2 == sock && !(pyStartsWith p.1 "TEMP_"))).map (·.1)

/-- Lines 276–304 of `handle_client`: the `socket.timeout` branch.
If a non-temporary id maps to this socket, a `HEARTBEAT_CHECK` is written to
it and the loop continues; a `sendall` failure falls into the bare `except`
and breaks; an unregistered (still temporary) connection breaks immediately
with nothing sent. -/
def timeoutStep (ts : TruckMap) (sock : Sock) (probeOk : Bool) :
    Control × List Effect :=
  match findRegistered ts sock with
  | some tid =>
    if probeOk then
      (.continueLoop, [.sent sock ⟨"SERVER", some tid, "HEARTBEAT_CHECK"⟩])
    else
      (.breakLoop, [])
  | none => (.breakLoop, [])

/-- What one iteration of the `while True` read loop encounters: a `recv`
result (header bytes, payload bytes, parse outcome, whether the ack write
succeeds), a `socket.timeout`, a connection reset/abort, or some other
exception. -/
inductive IterEvent
  | data (header : List Nat) (payload : List Nat) (parsed : ParseOutcome)
      (ackOk : Bool)
  | timeout (probeOk : Bool)
  | connReset
  | connAborted
  | otherExn
deriving DecidableEq, Repr

structure IterResult where
  ts : TruckMap
  ctl : Control
  effects : List Effect
deriving DecidableEq, Repr

/-- One iteration of the read loop, lines 174–310 of `handle_client`:

* empty header ⇒ peer closed, `break`;
* `len(header_data) < 4` ⇒ log and `continue`;
* `payload_len = header_data[3]`; a payload shorter than declared ⇒ log and
  `continue`;
* a parse exception or an `INVALID` record ⇒ log and `continue`;
* a valid message ⇒ register the sender, then dispatch (`HELLO` answered
  locally, everything else to the consumer), loop continues;
* `socket.timeout` ⇒ `timeoutStep`;
* `ConnectionResetError` / `ConnectionAbortedError` ⇒ `break`;
* any other exception ⇒ log and `continue`. -/
def handleIter (ts : TruckMap) (temp : String) (sock : Sock)
    (ev : IterEvent) : IterResult :=
  match ev with
  | .data header payload parsed ackOk =>
    if header = [] then ⟨ts, .breakLoop, []⟩
    else if header.length < 4 then ⟨ts, .continueLoop, []⟩
    else
      -- `payload_len = header_data[3]`
      if 0 < header.getD 3 0 ∧ payload.length < header.getD 3 0 then
        ⟨ts, .continueLoop, []⟩
      else
        match parsed with
        | .exn => ⟨ts, .continueLoop, []⟩
        | .invalid => ⟨ts, .continueLoop, []⟩
        | .ok m =>
          ⟨registerSender ts temp m.sender sock, .continueLoop,
            dispatchMsg m sock ackOk⟩
  | .timeout probeOk =>
    let r := timeoutStep ts sock probeOk
    ⟨ts, r.1, r.2⟩
  | .connReset => ⟨ts, .breakLoop, []⟩
  | .connAborted => ⟨ts, .breakLoop, []⟩
  | .otherExn => ⟨ts, .continueLoop, []⟩

/-- A key of `self.clients`.  `start` inserts address tuples
(`self.clients[addr] = client_sock`, line 116); `send_message` looks up its
`client_id` argument, a device-identifier string.  Python's `in` across these
types simply compares unequal, which the sum type reproduces. -/
inductive PyKey
  | addrK (ip : String) (port : Nat)
  | strK (s : String)
deriving DecidableEq, Repr

/-- A value of `self.clients`: the source stores raw socket objects
(line 116), while `send_message` (line 405) reads `clients[client_id]["socket"]`,
i.e. expects a record with a `"socket"` field.  Both shapes are represented so
that each access can be modelled faithfully. -/
inductive PyVal
  | sockV (s : Sock)
  | recV (s : Sock)
deriving DecidableEq, Repr

abbrev ClientMap := List (PyKey × PyVal)

def clientLookup (m : ClientMap) (k : PyKey) : Option PyVal :=
  (m.find? (fun p => p.1 = k)).map (·.2)

/-- Python exceptions that escape `send_message`. -/
inductive PyErr
  | typeError
  | attributeError (name : String)
deriving DecidableEq, Repr

/-- Python `v["socket"]`: a raw socket object is not subscriptable
(`TypeError`); a dict holding a `"socket"` key yields the socket. -/
def subscriptSocket : PyVal → Except PyErr Sock
  | .sockV _ => .error .typeError
  | .recV s => .ok s

/-- Lines 391–421, `send_message(client_id, cmd, payload)`:

* `client_id not in self.clients` ⇒ log and `return False`;
* otherwise `client_sock = self.clients[client_id]["socket"]` — on the raw
  sockets the class actually stores this raises `TypeError` (uncaught);
* then `client_sock.sendall(message)`; on success `return True`;
* on a send failure the handler calls `self._close_client(client_id)` — a
  method `TCPServer` does not define anywhere, so the `except` body itself
  raises `AttributeError` and `return False` is never reached. -/
def send_message (clients : ClientMap) (client_id : String) (cmd : String)
    (sendOk : Bool) : Except PyErr (Bool × List Effect) :=
  match clientLookup clients (.strK client_id) with
  | none => .ok (false, [])
  | some v =>
    match subscriptSocket v with
    | .error e => .error e
    | .ok sock =>
      if sendOk then .ok (true, [.sent sock ⟨"SERVER", some client_id, cmd⟩])
      else .error (.attributeError "_close_client")

/-! ## `start`: bind phase (lines 66–137) -/

/-- How one `self.server_sock.bind(...)` attempt ends. -/
inductive BindErr
  | addrInUse
  | other
deriving DecidableEq, Repr

/-- Facts observable about the bind phase when it succeeds. -/
structure BindInfo where
  bindAttempts : Nat
  sleptFive : Bool
  freshSocket : Bool
deriving DecidableEq, Repr

/-- Lines 86–105, the inner `try` around `bind`: an `OSError` whose text
contains "Address already in use" closes the socket, sleeps 5 seconds, builds
a fresh socket with the same options and binds once more (a failure of this
second bind is not caught here); any other `OSError` is re-`raise`d. -/
def bindPhase (bind1 bind2 : Option BindErr) : Except BindErr BindInfo :=
  match bind1 with
  | none => .ok ⟨1, false, false⟩
  | some .addrInUse =>
    match bind2 with
    | none => .ok ⟨2, true, true⟩
    | some e => .error e
  | some .other => .error .other

/-- What `start` itself looks like to its caller. -/
inductive StartOutcome
  | listening (info : BindInfo)
  | abortedNoRaise (bindAttempts : Nat) (sleptFive : Bool)
deriving DecidableEq, Repr

/-- `start` (lines 66–137): the bind phase runs inside `start`'s own
`try ... except Exception` (line 133), which logs any escaping exception and
falls into `finally: self.stop()` — so a fatal bind error ends `start`
normally (the accept loop never runs) rather than raising to the caller. -/
def start (bind1 bind2 : Option BindErr) : StartOutcome :=
  match bindPhase bind1 bind2 with
  | .ok info => .listening info
  | .error _ =>
    match bind1 with
    | some .addrInUse => .abortedNoRaise 2 true
    | _ => .abortedNoRaise 1 false

/-! ## Shutdown: `safe_stop` / `stop` (lines 336–389) -/

/-- The fields of `TCPServer` that shutdown touches.  `server_sock = none`
models the attribute never having been set (`hasattr` false); `closed` records
every socket on which `close()` has been called. -/
structure SrvState where
  running : Bool
  clients : ClientMap
  truck_sockets : TruckMap
  server_sock : Option Sock
  closed : List Sock
deriving DecidableEq, Repr

def valSock : PyVal → Sock
  | .sockV s => s
  | .recV s => s

/-- `safe_stop` (lines 336–373): records `old_running`, clears the flag, and
returns at once if the server was already stopped.  Otherwise it shuts down
and closes every client socket (each wrapped in `try/except`, errors only
logged), closes the listening socket if the attribute exists (shutdown errors
swallowed), and clears both maps. -/
def safe_stop (s : SrvState) : SrvState :=
  let old := s.running
  let s1 : SrvState := { s with running := false }
  if old = false then s1
  else
    let afterClients := s1.closed ++ s.clients.map (fun p => valSock p.2)
    let afterServer :=
      match s.server_sock with
      | some sk => afterClients ++ [sk]
      | none => afterClients
    { s1 with clients := [], truck_sockets := [], closed := afterServer }

/-- `stop` (lines 375–389): returns immediately when the server is not
running *and* `server_sock` was never set; otherwise delegates to
`safe_stop`. -/
def stop (s : SrvState) : SrvState :=
  if s.running = false ∧ s.server_sock = none then s
  else safe_stop s

/-- A freshly constructed `TCPServer` (lines 12–29): empty maps, not running,
no `server_sock` attribute yet. -/
def initState : SrvState :=
  { running := false, clients := [], truck_sockets := [], server_sock := none,
    closed := [] }

end TCPServerModel

namespace TCPServerModel

/-! ## Dictionary lemmas shared by the claim theorems -/

lemma containsKey_eq_false_iff (m : TruckMap) (k : String) :
    containsKey m k = false ↔ ∀ p ∈ m, p.1 ≠ k := by
  unfold containsKey
  constructor
  · intro h p hp hk
    have hs : (m.find? (fun p => p.1 = k)).isSome = true := by
      rw [List.find?_isSome]
      exact ⟨p, hp, by simp [hk]⟩
    rw [h] at hs
    exact Bool.false_ne_true hs
  · intro h
    have : m.find? (fun p => p.1 = k) = none :=
      List.find?_eq_none.mpr (fun p hp => by simpa using h p hp)
    simp [this]

lemma mem_eraseKey (m : TruckMap) (k : String) (p : String × Sock) :
    p ∈ eraseKey m k ↔ p ∈ m ∧ p.1 ≠ k := by
  simp [eraseKey, List.mem_filter]

lemma containsKey_eraseKey_of_not (m : TruckMap) (k k' : String)
    (h : containsKey m k' = false) : containsKey (eraseKey m k) k' = false := by
  rw [containsKey_eq_false_iff] at h ⊢
  intro p hp
  exact h p (mem_eraseKey m k p |>.mp hp).1

lemma lookup_insertKey (m : TruckMap) (k : String) (v : Sock) :
    lookup (insertKey m k v) k = some v := by
  induction m with
  | nil => simp [insertKey, containsKey, lookup, List.find?]
  | cons a m ih =>
    by_cases ha : a.1 = k
    · have hc : containsKey (a :: m) k = true := by
        simp [containsKey, List.find?, ha]
      simp [insertKey, hc, lookup, List.find?, ha]
    · have hcc : containsKey (a :: m) k = containsKey m k := by
        simp [containsKey, List.find?, ha]
      by_cases hm : containsKey m k = true
      · have h2 := ih
        simp only [insertKey, hm, if_true] at h2
        simp only [lookup] at h2
        simp [insertKey, hcc, hm, lookup, List.find?, ha]
        simpa using h2
      · have hm' : containsKey m k = false := by simpa using hm
        have h2 := ih
        simp [insertKey, hm'] at h2
        simp only [lookup] at h2
        simp [insertKey, hcc, hm', lookup, List.find?, ha]
        simpa using h2

lemma lookup_eq_some_mem (m : TruckMap) (k : String) (v : Sock)
    (h : lookup m k = some v) : (k, v) ∈ m := by
  unfold lookup at h
  obtain ⟨p, hfind, hp⟩ := Option.map_eq_some'.mp h
  have hmem := List.mem_of_find?_eq_some hfind
  have hkey : p.1 = k := by simpa using List.find?_some hfind
  cases p
  simp_all

lemma mem_insertKey_of_not_contains (m : TruckMap) (k : String) (v : Sock)
    (h : containsKey m k = false) (p : String × Sock) :
    p ∈ insertKey m k v ↔ p ∈ m ∨ p = (k, v) := by
  simp [insertKey, h]

end TCPServerModel

namespace TCPServerModel

/-! ## Claim C1 — short reads in the framing loop -/

/-- C1 is false as stated: a 2-byte header read and a short payload read
(the spec's own scenario: declared length 10, only 4 bytes received) both
leave the loop control at `continue`; the handler does not exit the loop. -/
theorem C1_counterexample :
    (handleIter [] "TEMP_5000" 2 (.data [1, 1] [] .exn true)).ctl
        = Control.continueLoop ∧
    (handleIter [] "TEMP_5000" 2
        (.data [1, 1, 1, 10] [9, 9, 9, 9] .exn true)).ctl
        = Control.continueLoop ∧
    Control.continueLoop ≠ Control.breakLoop := by
  decide

/-- C1 (amended): a header read of fewer than 4 but more than 0 bytes, and a
payload read shorter than the declared payload length, are each logged and
the read loop continues with the registry unchanged and no side effect;
only a zero-byte header read (peer closed) exits the loop. -/
theorem C1_short_read_continues (ts : TruckMap) (temp : String) (sock : Sock)
    (header payload : List Nat) (parsed : ParseOutcome) (ackOk : Bool) :
    (header ≠ [] → header.length < 4 →
      handleIter ts temp sock (.data header payload parsed ackOk)
        = ⟨ts, .continueLoop, []⟩) ∧
    (4 ≤ header.length → 0 < header.getD 3 0 →
      payload.length < header.getD 3 0 →
      handleIter ts temp sock (.data header payload parsed ackOk)
        = ⟨ts, .continueLoop, []⟩) ∧
    (header = [] →
      handleIter ts temp sock (.data header payload parsed ackOk)
        = ⟨ts, .breakLoop, []⟩) := by
  refine ⟨?_, ?_, ?_⟩
  · intro h1 h2
    simp [handleIter, h1, h2]
  · intro h1 h2 h3
    have hne : header ≠ [] := by
      intro h
      subst h
      simp at h1
    have hnl : ¬ header.length < 4 := by omega
    show (if header = [] then _ else if header.length < 4 then _ else _) = _
    rw [if_neg hne, if_neg hnl, if_pos ⟨h2, h3⟩]
  · intro h1
    simp [handleIter, h1]

/-- C1 witness: the amended statement evaluated on a 2-byte header, on a
payload 4 bytes short of its declared length 10, and on a closed peer. -/
theorem C1_short_read_continues_witness :
    handleIter [] "TEMP_5000" 2 (.data [1, 1] [] .exn true)
      = ⟨[], .continueLoop, []⟩ ∧
    handleIter [] "TEMP_5000" 2 (.data [1, 1, 1, 10] [9, 9, 9, 9] .exn true)
      = ⟨[], .continueLoop, []⟩ ∧
    handleIter [] "TEMP_5000" 2 (.data [] [] .exn true)
      = ⟨[], .breakLoop, []⟩ :=
  ⟨(C1_short_read_continues [] "TEMP_5000" 2 [1, 1] [] .exn true).1
      (by decide) (by decide),
   (C1_short_read_continues [] "TEMP_5000" 2 [1, 1, 1, 10] [9, 9, 9, 9]
      .exn true).2.1 (by decide) (by decide) (by decide),
   (C1_short_read_continues [] "TEMP_5000" 2 [] [] .exn true).2.2 rfl⟩

/-! ## Claim C2 — exactly-one-identifier registry invariant -/

/-- C2 is false as stated: when socket 2 (registered as `TEMP_5000`) sends
its first decoded message with sender `TRUCK_1` while `TRUCK_1` is already a
registry key (stale entry for socket 1), the guard
`if truck_id not in self.truck_sockets` skips the temp-entry deletion, and
afterwards both `TEMP_5000` and `TRUCK_1` map to socket 2. -/
theorem C2_counterexample :
    lookup (handleIter [("TRUCK_1", 1), ("TEMP_5000", 2)] "TEMP_5000" 2
        (.data [1, 1, 1, 0] [] (.ok ⟨some "TRUCK_1", some "STATUS"⟩) true)).ts
      "TEMP_5000" = some 2 ∧
    lookup (handleIter [("TRUCK_1", 1), ("TEMP_5000", 2)] "TEMP_5000" 2
        (.data [1, 1, 1, 0] [] (.ok ⟨some "TRUCK_1", some "STATUS"⟩) true)).ts
      "TRUCK_1" = some 2 ∧
    "TEMP_5000" ≠ "TRUCK_1" := by
  decide

/-- C2 (amended): the promotion removes the temporary entry and leaves the
socket registered under exactly the identified key only when the sender id is
not already a key of the registry; under that hypothesis (plus the connection
being registered only under its temporary key beforehand), the promoted
registry maps the sender id to the socket, no longer contains the temporary
key, and maps no other key to that socket. -/
theorem C2_promotion_fresh_id (ts : TruckMap) (temp tid : String) (sock : Sock)
    (hfresh : containsKey ts tid = false)
    (htemp : lookup ts temp = some sock)
    (honly : ∀ p ∈ ts, p.2 = sock → p.1 = temp)
    (hne : tid ≠ "") :
    lookup (registerSender ts temp (some tid) sock) tid = some sock ∧
    containsKey (registerSender ts temp (some tid) sock) temp = false ∧
    ∀ p ∈ registerSender ts temp (some tid) sock, p.2 = sock → p.1 = tid := by
  have htne : temp ≠ tid := by
    intro h
    subst h
    rw [containsKey_eq_false_iff] at hfresh
    exact hfresh _ (lookup_eq_some_mem ts temp sock htemp) rfl
  have hreg : registerSender ts temp (some tid) sock
      = insertKey (eraseKey ts temp) tid sock := by
    simp [registerSender, hne, hfresh]
  have hfresh1 : containsKey (eraseKey ts temp) tid = false :=
    containsKey_eraseKey_of_not ts temp tid hfresh
  refine ⟨?_, ?_, ?_⟩
  · rw [hreg]
    exact lookup_insertKey _ _ _
  · rw [hreg, containsKey_eq_false_iff]
    intro p hp
    rw [mem_insertKey_of_not_contains _ _ _ hfresh1] at hp
    rcases hp with hp | hp
    · exact ((mem_eraseKey ts temp p).mp hp).2
    · rw [hp]
      exact fun h => htne h.symm
  · intro p hp hsock
    rw [hreg, mem_insertKey_of_not_contains _ _ _ hfresh1] at hp
    rcases hp with hp | hp
    · have hmem := (mem_eraseKey ts temp p).mp hp
      exact absurd (honly p hmem.1 hsock) hmem.2
    · rw [hp]

/-- C2 witness: a fresh promotion from `TEMP_5000` to `TRUCK_1`. -/
theorem C2_promotion_fresh_id_witness :
    lookup (registerSender [("TEMP_5000", 7)] "TEMP_5000" (some "TRUCK_1") 7)
      "TRUCK_1" = some 7 ∧
    containsKey (registerSender [("TEMP_5000", 7)] "TEMP_5000"
      (some "TRUCK_1") 7) "TEMP_5000" = false :=
  ⟨(C2_promotion_fresh_id [("TEMP_5000", 7)] "TEMP_5000" "TRUCK_1" 7
      (by decide) (by decide) (by decide) (by decide)).1,
   (C2_promotion_fresh_id [("TEMP_5000", 7)] "TEMP_5000" "TRUCK_1" 7
      (by decide) (by decide) (by decide) (by decide)).2.1⟩

end TCPServerModel

namespace TCPServerModel

/-! ## Claim C3 — supersession of a reconnecting identifier -/

/-- C3 fails on the code: when the second connection (socket 2) identifies as
`TRUCK_1`, already registered to socket 1, the registry entry is overwritten
but the iteration produces no close of socket 1 (its only effect is the
consumer call), and `send_message("TRUCK_1", ...)` does not write to socket 2
at all — it returns `False` because it consults the address-keyed `clients`
map, in which no device identifier ever appears. -/
theorem C3_supersession_behavior :
    (handleIter [("TRUCK_1", 1), ("TEMP_6000", 2)] "TEMP_6000" 2
        (.data [1, 1, 1, 0] [] (.ok ⟨some "TRUCK_1", some "STATUS"⟩) true)).ts
      = [("TRUCK_1", 2), ("TEMP_6000", 2)] ∧
    (handleIter [("TRUCK_1", 1), ("TEMP_6000", 2)] "TEMP_6000" 2
        (.data [1, 1, 1, 0] [] (.ok ⟨some "TRUCK_1", some "STATUS"⟩) true)).effects
      = [.consumerHandled ⟨some "TRUCK_1", some "STATUS"⟩] ∧
    send_message
      [(.addrK "127.0.0.1" 5000, .sockV 1), (.addrK "127.0.0.1" 6000, .sockV 2)]
      "TRUCK_1" "CMD" true = .ok (false, []) := by
  refine ⟨by decide, by decide, rfl⟩

/-! ## Claim C4 — `send_message` resolution and the absent case -/

/-- C4: the absent-identifier case does return a failure without an exception
— on every `clients` map the accept loop can actually build (address-tuple
keys only), `send_message` returns `False` with no write, for every
identifier.  But the claim's resolution clause fails: lookups go through the
address-keyed `clients` map, not the truck-id registry, and on a hypothetical
key hit the subscription `clients[client_id]["socket"]` on the raw socket the
class stores raises `TypeError`. -/
theorem C4_send_resolution_behavior :
    (∀ clients : ClientMap,
      (∀ p ∈ clients, ∃ ip port v, p = (PyKey.addrK ip port, v)) →
      ∀ (id cmd : String) (ok : Bool),
        send_message clients id cmd ok = .ok (false, [])) ∧
    send_message [(.addrK "127.0.0.1" 5000, .sockV 1)] "TRUCK_1" "CMD" true
      = .ok (false, []) ∧
    send_message [(.strK "TRUCK_1", .sockV 1)] "TRUCK_1" "CMD" true
      = .error .typeError := by
  refine ⟨?_, rfl, rfl⟩
  intro clients h id cmd ok
  have hnone : clients.find? (fun p => p.1 = PyKey.strK id) = none := by
    apply List.find?_eq_none.mpr
    intro p hp
    obtain ⟨ip, port, v, hpk⟩ := h p hp
    subst hpk
    simp
  simp [send_message, clientLookup, hnone]

/-- C4 witness: the spec scenario `sendTo("UNKNOWN", "CMD", {})` on a server
with one accepted connection. -/
theorem C4_send_resolution_behavior_witness :
    send_message [(.addrK "127.0.0.1" 5000, .sockV 1)] "UNKNOWN" "CMD" true
      = .ok (false, []) :=
  C4_send_resolution_behavior.1 [(.addrK "127.0.0.1" 5000, .sockV 1)]
    (by
      intro p hp
      rw [List.mem_singleton] at hp
      exact ⟨"127.0.0.1", 5000, .sockV 1, hp⟩)
    "UNKNOWN" "CMD" true

/-! ## Claim C5 — write failure inside `send_message` -/

/-- C5 fails on the code: even granting `send_message` the record shape
(`{"socket": sock}`) its own line 405 expects, a failing `sendall` lands in
an `except` body that calls `self._close_client` — a method `TCPServer`
never defines — so `AttributeError` is thrown to the caller and `False` is
never returned; the successful write is shown for contrast. -/
theorem C5_write_failure_behavior :
    send_message [(.strK "TRUCK_1", .recV 2)] "TRUCK_1" "CMD" false
      = .error (.attributeError "_close_client") ∧
    send_message [(.strK "TRUCK_1", .recV 2)] "TRUCK_1" "CMD" true
      = .ok (true, [.sent 2 ⟨"SERVER", some "TRUCK_1", "CMD"⟩]) :=
  ⟨rfl, rfl⟩

end TCPServerModel

namespace TCPServerModel

/-! ## Claim C6 — idle-timeout heartbeat policy -/

/-- C6: on a read timeout, a connection registered under some non-temporary
identifier is sent a `HEARTBEAT_CHECK` addressed to that identifier and the
loop continues; a failure of that probe write exits the loop; a connection
registered only under `TEMP_`-prefixed keys (or not at all) exits the loop
with nothing sent.  The final clause identifies the handler's scan with the
anonymity condition. -/
theorem C6_timeout_policy (ts : TruckMap) (sock : Sock) (probeOk : Bool) :
    (∀ tid, findRegistered ts sock = some tid →
      (probeOk = true →
        timeoutStep ts sock probeOk
          = (.continueLoop, [.sent sock ⟨"SERVER", some tid, "HEARTBEAT_CHECK"⟩])) ∧
      (probeOk = false →
        timeoutStep ts sock probeOk = (.breakLoop, []))) ∧
    (findRegistered ts sock = none →
      timeoutStep ts sock probeOk = (.breakLoop, [])) ∧
    (findRegistered ts sock = none ↔
      ∀ p ∈ ts, p.2 = sock → pyStartsWith p.1 "TEMP_" = true) := by
  refine ⟨?_, ?_, ?_⟩
  · intro tid h
    constructor <;> intro hpk <;> subst hpk <;> simp [timeoutStep, h]
  · intro h
    simp [timeoutStep, h]
  · simp only [findRegistered, Option.map_eq_none', List.find?_eq_none]
    constructor
    · intro h p hp hs
      have := h p hp
      simp [hs] at this
      exact this
    · intro h p hp
      simp only [Bool.and_eq_true, Bool.not_eq_true', beq_iff_eq, not_and]
      intro hs
      simp [h p hp hs]

/-- C6 witness: an identified socket is probed on timeout, an identified
socket whose probe write fails is closed, and an anonymous socket is closed
with no probe. -/
theorem C6_timeout_policy_witness :
    timeoutStep [("TEMP_5000", 2), ("TRUCK_1", 2)] 2 true
      = (.continueLoop, [.sent 2 ⟨"SERVER", some "TRUCK_1", "HEARTBEAT_CHECK"⟩]) ∧
    timeoutStep [("TRUCK_1", 3)] 3 false = (.breakLoop, []) ∧
    timeoutStep [("TEMP_5000", 2)] 2 true = (.breakLoop, []) :=
  ⟨((C6_timeout_policy [("TEMP_5000", 2), ("TRUCK_1", 2)] 2 true).1 "TRUCK_1"
      (by decide)).1 rfl,
   ((C6_timeout_policy [("TRUCK_1", 3)] 3 false).1 "TRUCK_1" (by decide)).2 rfl,
   (C6_timeout_policy [("TEMP_5000", 2)] 2 true).2.1 (by decide)⟩

/-! ## Claim C7 — `HELLO` answered locally -/

/-- C7: for every completely framed, successfully decoded message whose
command is `HELLO`, the iteration continues, the reply (when the write
succeeds) is exactly one `HEARTBEAT_ACK` addressed to the message's sender,
and the consumer's `handle_message` is never invoked. -/
theorem C7_hello_handled_locally (ts : TruckMap) (temp : String) (sock : Sock)
    (header payload : List Nat) (m : Msg) (ackOk : Bool)
    (hne : header ≠ []) (hlen : ¬ header.length < 4)
    (hpl : ¬ (0 < header.getD 3 0 ∧ payload.length < header.getD 3 0))
    (hcmd : m.cmd = some "HELLO") :
    (handleIter ts temp sock (.data header payload (.ok m) ackOk)).ctl
      = .continueLoop ∧
    (ackOk = true →
      (handleIter ts temp sock (.data header payload (.ok m) ackOk)).effects
        = [.sent sock ⟨"SERVER", m.sender, "HEARTBEAT_ACK"⟩]) ∧
    ∀ m', Effect.consumerHandled m'
        ∉ (handleIter ts temp sock (.data header payload (.ok m) ackOk)).effects := by
  have hred : handleIter ts temp sock (.data header payload (.ok m) ackOk)
      = ⟨registerSender ts temp m.sender sock, .continueLoop,
          dispatchMsg m sock ackOk⟩ := by
    show (if header = [] then _ else if header.length < 4 then _ else _) = _
    rw [if_neg hne, if_neg hlen, if_neg hpl]
  refine ⟨by rw [hred], ?_, ?_⟩
  · intro ha
    subst ha
    rw [hred]
    simp [dispatchMsg, hcmd]
  · intro m'
    rw [hred]
    cases ackOk <;> simp [dispatchMsg, hcmd]

/-- C7 witness: a `HELLO` from `TRUCK_1` gets exactly the `HEARTBEAT_ACK`
reply. -/
theorem C7_hello_handled_locally_witness :
    (handleIter [("TEMP_5000", 2)] "TEMP_5000" 2
        (.data [1, 1, 1, 0] [] (.ok ⟨some "TRUCK_1", some "HELLO"⟩) true)).effects
      = [.sent 2 ⟨"SERVER", some "TRUCK_1", "HEARTBEAT_ACK"⟩] :=
  (C7_hello_handled_locally [("TEMP_5000", 2)] "TEMP_5000" 2 [1, 1, 1, 0] []
    ⟨some "TRUCK_1", some "HELLO"⟩ true (by decide) (by decide) (by decide)
    rfl).2.1 rfl

/-! ## Claim C8 — bind-retry policy of `start` -/

/-- C8 is false in its last clause: a first bind failure that is not
"Address already in use" is re-raised out of the bind block (`bindPhase`
errors), but `start`'s own top-level `except Exception` catches it, so
`start` ends in the aborted-without-raising outcome instead of propagating
the error to its caller. -/
theorem C8_counterexample :
    bindPhase (some .other) none = .error .other ∧
    start (some .other) none = .abortedNoRaise 1 false :=
  ⟨rfl, rfl⟩

/-- C8 (amended): an address-in-use bind failure sleeps 5 seconds and
retries exactly once on a freshly created socket (a clean first bind never
sleeps or retries); a failure of the retry, or a first failure for any other
reason, aborts `start` — the error leaves the bind phase but is caught by
`start`'s top-level handler, so `start` returns normally after shutting
down rather than raising to its caller. -/
theorem C8_bind_retry (b1 b2 : Option BindErr) :
    (b1 = none → start b1 b2 = .listening ⟨1, false, false⟩) ∧
    (b1 = some .addrInUse → b2 = none → start b1 b2 = .listening ⟨2, true, true⟩) ∧
    (∀ e, b1 = some .addrInUse → b2 = some e →
      start b1 b2 = .abortedNoRaise 2 true) ∧
    (b1 = some .other → start b1 b2 = .abortedNoRaise 1 false) := by
  refine ⟨?_, ?_, ?_, ?_⟩ <;> intros <;> subst_vars <;> rfl

/-- C8 witness: the retry succeeding, the retry failing, and a clean first
bind. -/
theorem C8_bind_retry_witness :
    start (some .addrInUse) none = .listening ⟨2, true, true⟩ ∧
    start (some .addrInUse) (some .addrInUse) = .abortedNoRaise 2 true ∧
    start none none = .listening ⟨1, false, false⟩ :=
  ⟨(C8_bind_retry (some .addrInUse) none).2.1 rfl rfl,
   (C8_bind_retry (some .addrInUse) (some .addrInUse)).2.2.1 .addrInUse rfl rfl,
   (C8_bind_retry none none).1 rfl⟩

end TCPServerModel

namespace TCPServerModel

/-! ## Claim C9 — idempotent shutdown -/

lemma safe_stop_running (s : SrvState) : (safe_stop s).running = false := by
  unfold safe_stop
  by_cases h : s.running = false <;> simp [h]

lemma safe_stop_server_sock (s : SrvState) :
    (safe_stop s).server_sock = s.server_sock := by
  unfold safe_stop
  by_cases h : s.running = false <;> cases hs : s.server_sock <;> simp [h, hs]

lemma safe_stop_idem (s : SrvState) : safe_stop (safe_stop s) = safe_stop s := by
  have h : (safe_stop s).running = false := safe_stop_running s
  cases hs : safe_stop s with
  | mk running clients trucks ssock closed =>
    rw [hs] at h
    subst h
    simp [safe_stop]

lemma stop_of_running (s : SrvState) (h : s.running = true) :
    stop s = safe_stop s := by
  rw [stop, if_neg]
  rintro ⟨h1, _⟩
  rw [h] at h1
  cases h1

lemma stop_idem (s : SrvState) : stop (stop s) = stop s := by
  by_cases h : s.running = false ∧ s.server_sock = none
  · have h1 : stop s = s := by rw [stop, if_pos h]
    rw [h1, h1]
  · have h1 : stop s = safe_stop s := by rw [stop, if_neg h]
    rw [h1]
    by_cases h2 : s.server_sock = none
    · have hrs : (safe_stop s).running = false := safe_stop_running s
      have hss : (safe_stop s).server_sock = none := by
        rw [safe_stop_server_sock]
        exact h2
      rw [stop, if_pos ⟨hrs, hss⟩]
    · have hss : ¬ ((safe_stop s).running = false ∧ (safe_stop s).server_sock = none) := by
        rw [safe_stop_server_sock]
        exact fun hc => h2 hc.2
      rw [stop, if_neg hss, safe_stop_idem]

/-- C9: `safe_stop` and `stop` are idempotent on every server state (so a
second call reproduces the end state of the first, and — both being total
state transformers whose per-socket errors the source swallows — raises
nothing); `stop` on a never-started server is a no-op; and stopping a
running server empties both maps, clears the flag, and closes the listening
socket when the attribute exists. -/
theorem C9_shutdown_idempotent :
    (∀ s, safe_stop (safe_stop s) = safe_stop s) ∧
    (∀ s, stop (stop s) = stop s) ∧
    stop initState = initState ∧
    (∀ s, s.running = true →
      (stop s).clients = [] ∧ (stop s).truck_sockets = [] ∧
      (stop s).running = false ∧
      ∀ sk, s.server_sock = some sk → sk ∈ (stop s).closed) := by
  refine ⟨safe_stop_idem, stop_idem, by simp [stop, initState], ?_⟩
  intro s hr
  rw [stop_of_running s hr]
  unfold safe_stop
  rw [hr]
  refine ⟨by simp, by simp, by simp, ?_⟩
  intro sk hsk
  simp [hsk]

/-- C9 witness: stopping a concrete running server with one client and a
bound listening socket. -/
theorem C9_shutdown_idempotent_witness :
    (stop ⟨true, [(.addrK "127.0.0.1" 5000, .sockV 3)], [("TRUCK_1", 3)],
        some 9, []⟩).clients = [] ∧
    (stop ⟨true, [(.addrK "127.0.0.1" 5000, .sockV 3)], [("TRUCK_1", 3)],
        some 9, []⟩).truck_sockets = [] ∧
    (stop ⟨true, [(.addrK "127.0.0.1" 5000, .sockV 3)], [("TRUCK_1", 3)],
        some 9, []⟩).running = false ∧
    9 ∈ (stop ⟨true, [(.addrK "127.0.0.1" 5000, .sockV 3)], [("TRUCK_1", 3)],
        some 9, []⟩).closed :=
  let h := C9_shutdown_idempotent.2.2.2
    ⟨true, [(.addrK "127.0.0.1" 5000, .sockV 3)], [("TRUCK_1", 3)], some 9, []⟩ rfl
  ⟨h.1, h.2.1, h.2.2.1, h.2.2.2 9 rfl⟩

/-! ## Claim C10 — a failed `HEARTBEAT_ACK` write is non-fatal -/

/-- C10: when the `HEARTBEAT_ACK` reply to a received `HELLO` fails to send,
the failure is swallowed (no effect at all is produced), the loop continues,
and the sender stays registered to its socket — in contrast to a failed
`HEARTBEAT_CHECK` probe on timeout, which exits the loop (final clause). -/
theorem C10_ack_failure_keeps_connection (ts : TruckMap) (temp : String)
    (sock : Sock) (header payload : List Nat) (m : Msg)
    (hne : header ≠ []) (hlen : ¬ header.length < 4)
    (hpl : ¬ (0 < header.getD 3 0 ∧ payload.length < header.getD 3 0))
    (hcmd : m.cmd = some "HELLO") :
    (handleIter ts temp sock (.data header payload (.ok m) false)).ctl
      = .continueLoop ∧
    (handleIter ts temp sock (.data header payload (.ok m) false)).effects
      = [] ∧
    (∀ tid, m.sender = some tid → tid ≠ "" →
      lookup (handleIter ts temp sock (.data header payload (.ok m) false)).ts
        tid = some sock) ∧
    (∀ (ts' : TruckMap) (sock' : Sock) tid,
      findRegistered ts' sock' = some tid →
      (timeoutStep ts' sock' false).1 = .breakLoop) := by
  have hred : handleIter ts temp sock (.data header payload (.ok m) false)
      = ⟨registerSender ts temp m.sender sock, .continueLoop,
          dispatchMsg m sock false⟩ := by
    show (if header = [] then _ else if header.length < 4 then _ else _) = _
    rw [if_neg hne, if_neg hlen, if_neg hpl]
  refine ⟨by rw [hred], ?_, ?_, ?_⟩
  · rw [hred]
    simp [dispatchMsg, hcmd]
  · intro tid hs hne'
    rw [hred]
    have hr : registerSender ts temp m.sender sock
        = insertKey (if containsKey ts tid then ts else eraseKey ts temp)
            tid sock := by
      rw [hs]
      simp [registerSender, hne']
    rw [hr]
    exact lookup_insertKey _ _ _
  · intro ts' sock' tid h
    simp [timeoutStep, h]

/-- C10 witness: a `HELLO` from `TRUCK_1` whose ack write fails leaves the
loop running, produces no effect, and keeps `TRUCK_1` registered. -/
theorem C10_ack_failure_keeps_connection_witness :
    (handleIter [("TEMP_5000", 2)] "TEMP_5000" 2
        (.data [1, 1, 1, 0] [] (.ok ⟨some "TRUCK_1", some "HELLO"⟩) false)).ctl
      = .continueLoop ∧
    (handleIter [("TEMP_5000", 2)] "TEMP_5000" 2
        (.data [1, 1, 1, 0] [] (.ok ⟨some "TRUCK_1", some "HELLO"⟩) false)).effects
      = [] ∧
    lookup (handleIter [("TEMP_5000", 2)] "TEMP_5000" 2
        (.data [1, 1, 1, 0] [] (.ok ⟨some "TRUCK_1", some "HELLO"⟩) false)).ts
      "TRUCK_1" = some 2 :=
  let h := C10_ack_failure_keeps_connection [("TEMP_5000", 2)] "TEMP_5000" 2
    [1, 1, 1, 0] [] ⟨some "TRUCK_1", some "HELLO"⟩ (by decide) (by decide)
    (by decide) rfl
  ⟨h.1, h.2.1, h.2.2.1 "TRUCK_1" rfl (by decide)⟩

end TCPServerModel
